import Mathlib

/-
Verification of the gurobipy-pandas bridge core.

The repository provides `add_vars` / `add_constrs` entry points
(src/gurobipy_pandas/api.py) dispatching on the kind of pandas object
supplied (Index / Series / DataFrame), a naming engine producing labels
"base[key]" from index entries, an attribute resolver turning
constant / column-reference / aligned-series specifications into
index-aligned value columns, an entity builder issuing one batch call to
the external Gurobi model, and an accessor layer reading attributes off a
column of variable handles.

The dispatcher `add_vars` is embedded directly from
src/gurobipy_pandas/api.py.  The modules it delegates to
(gurobipy_pandas.variables, gurobipy_pandas.constraints, the pdcomfi
accessors) are not part of the sources available here; those parts are
modelled from the specification, as marked on each definition.

Machine reals are modelled as rationals; the external model is modelled
as explicit state (committed and pending entity records) threaded through
results, so "no mutation on error" is literally "an error result carries
no model".
-/

namespace GurobipyPandas

/-- A scalar index component: pandas index entries in the tests are ints or
strings; its "natural textual representation" is `str(value)`. -/
inductive Scalar where
  | int (i : Int)
  | str (s : String)
deriving DecidableEq

/-- `str(value)` for a scalar index component. -/
def Scalar.text : Scalar → String
  | .int i => toString i
  | .str s => s

/-- An index key: either a scalar (single-level index) or a tuple of
scalars (multi-level index). -/
inductive Key where
  | single (s : Scalar)
  | multi (parts : List Scalar)
deriving DecidableEq

/-- Join strings with commas, as Python does for the components of a
tuple key inside a generated name. -/
def joinComma : List String → String
  | [] => ""
  | [s] => s
  | s :: rest => s ++ "," ++ joinComma rest

/-- Textual form of a key as it appears inside a generated label:
`str(key)` for a scalar, comma-joined components for a tuple. -/
def Key.format : Key → String
  | .single s => s.text
  | .multi parts => joinComma (parts.map Scalar.text)

/-- One label per index entry: `base ++ "[" ++ key ++ "]"`. -/
def labelList (b : String) : List Key → List String
  | [] => []
  | k :: rest => (b ++ "[" ++ Key.format k ++ "]") :: labelList b rest

/-- Modelled from the spec: the Naming Engine
(`generate_labels(index, base_name)`, section 4.1) of
gurobipy_pandas.variables / pdcomfi, whose source is not included here.
If `base_name` is absent it returns nothing; otherwise one label per
index entry, in index order. -/
def generate_labels (index : List Key) (base_name : Option String) : Option (List String) :=
  match base_name with
  | none => none
  | some b => some (labelList b index)

/-- Reference definition following the claim text for the Naming Engine:
option-map over the base name, index-map over the entries, a scalar key
rendered by its textual representation, a tuple key rendered by joining
the stringified components with commas (`String.intercalate`). -/
def labelsSpec (index : List Key) (base_name : Option String) : Option (List String) :=
  base_name.map (fun b => index.map (fun k =>
    match k with
    | .single s => b ++ "[" ++ s.text ++ "]"
    | .multi parts => b ++ "[" ++ String.intercalate "," (parts.map Scalar.text) ++ "]"))

/-- A cell value: numeric, string, or a handle to a created model
entity (a `gp.Var` sitting in an object column). -/
inductive CellVal where
  | num (q : ℚ)
  | str (s : String)
  | handle (h : Nat)
deriving DecidableEq

/-- A pandas DataFrame: an index shared by all columns, and an ordered
list of named columns. -/
structure DataFrame where
  index : List Key
  cols : List (String × List CellVal)
deriving DecidableEq

/-- Well-formedness of a DataFrame (holds for every real pandas frame):
every column has exactly one value per index entry. -/
def DataFrame.wf (df : DataFrame) : Prop :=
  ∀ c ∈ df.cols, c.2.length = df.index.length

instance (df : DataFrame) : Decidable df.wf := by
  unfold DataFrame.wf; infer_instance

/-- Look up a column by name (first match, as in a pandas frame where
names are unique). -/
def lookupCol (name : String) : List (String × List CellVal) → Option (List CellVal)
  | [] => none
  | (n, col) :: rest => if n = name then some col else lookupCol name rest

/-- The error taxonomy of the spec (section 7), plus the built-in
`ValueError` that api.py raises for an unsupported input kind and the
`AttributeError`-class failure of the accessor layer. -/
inductive GPError where
  | configurationError (msg : String)
  | alignmentError (msg : String)
  | typeError (msg : String)
  | valueError (msg : String)
  | externalModelError (msg : String)
  | attributeError (msg : String)
deriving DecidableEq

/-- Validation errors are those raised by this system's own checks,
before any call reaches the external model. -/
def GPError.isValidation : GPError → Bool
  | .configurationError _ => true
  | .alignmentError _ => true
  | .typeError _ => true
  | .valueError _ => true
  | .externalModelError _ => false
  | .attributeError _ => false

/-- The expected scalar kind of an attribute slot: numeric for
lb/ub/obj, a type-code string for vtype. -/
inductive AttrKind where
  | numeric
  | typeCode
deriving DecidableEq

/-- The Gurobi variable type codes (continuous, binary, integer,
semicontinuous, semiinteger). -/
def validVTypes : List String := ["C", "B", "I", "S", "N"]

/-- Scalar-type check for a constant attribute value. -/
def kindCheck : AttrKind → CellVal → Bool
  | .numeric, .num _ => true
  | .typeCode, .str s => decide (s ∈ validVTypes)
  | _, _ => false

/-- Attribute specification (spec section 3): a constant, a column name
(DataFrame path), or a caller-supplied aligned series (Index/Series
path). -/
inductive VSpec where
  | const (v : CellVal)
  | colRef (name : String)
  | aligned (c : List (Key × CellVal))
deriving DecidableEq

/-- Modelled from the spec: the Attribute Resolver
(`resolve(spec, target_index, target_table)`, section 4.2) of
gurobipy_pandas.variables, whose source is not included here.  A constant
broadcasts (after the scalar-type check); a column reference looks the
name up in the target table; an aligned series must carry an index equal
to the target index as an ordered sequence.  A pure function: it takes no
model argument, so no external-model call can be involved. -/
def resolve (kind : AttrKind) (spec : VSpec) (targetIndex : List Key)
    (targetTable : Option DataFrame) : Except GPError (List CellVal) :=
  match spec, targetTable with
  | .const v, _ =>
      if kindCheck kind v then .ok (List.replicate targetIndex.length v)
      else .error (.typeError "constant value has the wrong scalar type for this attribute")
  | .colRef c, some t =>
      match lookupCol c t.cols with
      | some col => .ok col
      | none => .error (.configurationError ("no column named " ++ c))
  | .colRef _, none =>
      .error (.configurationError "column references are only valid for dataframe inputs")
  | .aligned _, some _ =>
      .error (.configurationError "aligned series are only valid for index or series inputs")
  | .aligned s, none =>
      if s.map Prod.fst = targetIndex then .ok (s.map Prod.snd)
      else .error (.alignmentError "series index does not match the target index")

/-- Coerce a resolved cell to a number; bounds and objective slots
require numeric values. -/
def asNum : CellVal → Except GPError ℚ
  | .num q => .ok q
  | _ => .error (.typeError "expected a numeric value")

/-- Coerce a resolved cell to a variable type code. -/
def asVType : CellVal → Except GPError String
  | .str s =>
      if s ∈ validVTypes then .ok s
      else .error (.typeError "invalid variable type code")
  | _ => .error (.typeError "expected a variable type code")

/-- Effectful map over a list in the `Except` monad, failing on the
first error. -/
def exMapM (f : α → Except GPError β) : List α → Except GPError (List β)
  | [] => .ok []
  | x :: xs =>
    match f x with
    | .error e => .error e
    | .ok y =>
      match exMapM f xs with
      | .error e => .error e
      | .ok ys => .ok (y :: ys)

/-- Resolve a numeric attribute slot: resolve, then coerce every value. -/
def resolveNum (spec : VSpec) (idx : List Key) (tbl : Option DataFrame) :
    Except GPError (List ℚ) :=
  match resolve .numeric spec idx tbl with
  | .error e => .error e
  | .ok vs => exMapM asNum vs

/-- Resolve the vtype attribute slot. -/
def resolveVType (spec : VSpec) (idx : List Key) (tbl : Option DataFrame) :
    Except GPError (List String) :=
  match resolve .typeCode spec idx tbl with
  | .error e => .error e
  | .ok vs => exMapM asVType vs

/-- The per-variable record handed to the external model's batch
variable-creation call. -/
structure VarData where
  lb : ℚ
  ub : ℚ
  obj : ℚ
  vtype : String
  name : Option String
deriving DecidableEq

/-- The per-constraint record handed to the external model's batch
constraint-creation call. -/
structure ConstrData where
  clhs : ℚ
  csense : String
  crhs : ℚ
  cname : Option String
deriving DecidableEq

/-- The external Gurobi model, modelled as explicit state: entities
already committed by `update`, and entities added but still pending
(whose attributes are not yet readable). -/
structure GModel where
  committed : List VarData
  pending : List VarData
  ccommitted : List ConstrData
  cpending : List ConstrData
deriving DecidableEq

/-- Number of variables the model has handed out handles for. -/
def GModel.varCount (m : GModel) : Nat :=
  m.committed.length + m.pending.length

/-- All variable names currently known to the model. -/
def allVarNames (m : GModel) : List String :=
  (m.committed ++ m.pending).filterMap VarData.name

/-- All constraint names currently known to the model. -/
def allConstrNames (m : GModel) : List String :=
  (m.ccommitted ++ m.cpending).filterMap ConstrData.cname

/-- Boolean duplicate-freeness of a list of names. -/
def nodupBool : List String → Bool
  | [] => true
  | x :: xs => !(x ∈ xs : Bool) && nodupBool xs

/-- The external model accepts a batch when the newly proposed names are
duplicate-free and do not collide with existing names (spec section 3:
duplicate labels are surfaced as an external-model error, not caught by
the bridge). -/
def batchNamesOk (existing : List String) (proposed : List (Option String)) : Bool :=
  let newNames := proposed.filterMap id
  nodupBool newNames && newNames.all (fun n => !(n ∈ existing : Bool))

/-- Modelled from the spec: the external model's batch
`create_variables` call (section 6).  On success it appends the records
to the pending list and returns one fresh handle per record, in order. -/
def gModelAddVars (m : GModel) (reqs : List VarData) : Except GPError (GModel × List Nat) :=
  if batchNamesOk (allVarNames m) (reqs.map VarData.name) then
    .ok ({ m with pending := m.pending ++ reqs },
         (List.range reqs.length).map (fun i => i + m.varCount))
  else .error (.externalModelError "duplicate variable names")

/-- Modelled from the spec: the external model's batch
`create_constraints` call (section 6). -/
def gModelAddConstrs (m : GModel) (reqs : List ConstrData) : Except GPError (GModel × List Nat) :=
  if batchNamesOk (allConstrNames m) (reqs.map ConstrData.cname) then
    .ok ({ m with cpending := m.cpending ++ reqs },
         (List.range reqs.length).map (fun i => i + (m.ccommitted.length + m.cpending.length)))
  else .error (.externalModelError "duplicate constraint names")

/-- Modelled from the spec: the external model's commit step
(`Model.update()`), after which pending entities' attributes become
readable. -/
def gModelUpdate (m : GModel) : GModel :=
  { committed := m.committed ++ m.pending
    pending := []
    ccommitted := m.ccommitted ++ m.cpending
    cpending := [] }

/-- Modelled from the spec: `read_attribute(handle, attr_name)` of the
external model (section 6).  Only committed entities are readable. -/
def gModelRead (m : GModel) (h : Nat) (attr : String) : Except GPError CellVal :=
  match m.committed[h]? with
  | none => .error (.attributeError "attribute not available (update pending or unknown handle)")
  | some v =>
      if attr = "lb" then .ok (.num v.lb)
      else if attr = "ub" then .ok (.num v.ub)
      else if attr = "obj" then .ok (.num v.obj)
      else if attr = "vtype" then .ok (.str v.vtype)
      else .error (.attributeError ("unknown attribute " ++ attr))

/-- Modelled from the spec: the accessor layer's `get(attr)` (section
4.4, the pdcomfi series accessor): read the attribute off every handle,
in index order, preserving the index. -/
def seriesGetAttr (m : GModel) (s : List (Key × Nat)) (attr : String) :
    Except GPError (List (Key × CellVal)) :=
  match s with
  | [] => .ok []
  | (k, h) :: rest =>
    match gModelRead m h attr with
    | .error e => .error e
    | .ok v =>
      match seriesGetAttr m rest attr with
      | .error e => .error e
      | .ok vs => .ok ((k, v) :: vs)

/-- Per-position optional names for the batch call: the generated labels
when a base name is given, otherwise unnamed. -/
def nameList (idx : List Key) (base : Option String) : List (Option String) :=
  match generate_labels idx base with
  | none => List.replicate idx.length none
  | some ls => ls.map some

/-- Zip the resolved attribute columns into per-variable records
(all lists have one entry per index position). -/
def zipVarData : List ℚ → List ℚ → List ℚ → List String → List (Option String) → List VarData
  | a :: as, b :: bs, c :: cs, d :: ds, e :: es =>
      { lb := a, ub := b, obj := c, vtype := d, name := e } :: zipVarData as bs cs ds es
  | _, _, _, _, _ => []

/-- Modelled from the spec: the validation phase of variable creation
(gurobipy_pandas.variables, sections 4.2 and 4.3 steps 2 and 3): resolve
lb, ub, obj and vtype against the target index, generate labels, and
assemble the batch of creation requests.  Takes no model argument: every
error it can produce is raised before the external model is involved. -/
def build_var_requests (idx : List Key) (tbl : Option DataFrame) (name : Option String)
    (lb ub obj vtype : VSpec) : Except GPError (List VarData) :=
  match resolveNum lb idx tbl with
  | .error e => .error e
  | .ok lbn =>
    match resolveNum ub idx tbl with
    | .error e => .error e
    | .ok ubn =>
      match resolveNum obj idx tbl with
      | .error e => .error e
      | .ok objn =>
        match resolveVType vtype idx tbl with
        | .error e => .error e
        | .ok vtn => .ok (zipVarData lbn ubn objn vtn (nameList idx name))

/-- Modelled from the spec: `add_vars_from_index` of
gurobipy_pandas.variables (section 4.3, Index/Series call path).
Validates and builds the batch, issues the single batch call, and wraps
the returned handles into a series on the target index, named `name`. -/
def add_vars_from_index (m : GModel) (index : List Key) (name : Option String)
    (lb ub obj vtype : VSpec) :
    Except GPError (GModel × Option String × List (Key × Nat)) :=
  match build_var_requests index none name lb ub obj vtype with
  | .error e => .error e
  | .ok reqs =>
    match gModelAddVars m reqs with
    | .error e => .error e
    | .ok (m2, hs) => .ok (m2, name, index.zip hs)

/-- Modelled from the spec: `add_vars_from_dataframe` of
gurobipy_pandas.variables (section 4.3, table call path).  Requires a
result-column name that does not collide with an existing column
(ConfigurationError otherwise, raised before anything else per the
fail-fast policy of sections 4.2 and 7), then builds and issues the
batch and returns a new frame: the input's columns plus the result
column.  The input frame is not mutated (the embedding is pure). -/
def add_vars_from_dataframe (m : GModel) (df : DataFrame) (name : Option String)
    (lb ub obj vtype : VSpec) : Except GPError (GModel × DataFrame) :=
  match name with
  | none => .error (.configurationError "a column name is required to attach the result")
  | some n =>
    if n ∈ df.cols.map Prod.fst then
      .error (.configurationError ("column " ++ n ++ " already exists"))
    else
      match build_var_requests df.index (some df) (some n) lb ub obj vtype with
      | .error e => .error e
      | .ok reqs =>
        match gModelAddVars m reqs with
        | .error e => .error e
        | .ok (m2, hs) =>
          .ok (m2, { index := df.index, cols := df.cols ++ [(n, hs.map CellVal.handle)] })

/-- The second argument of `add_vars` in api.py: a pandas Index, Series
or DataFrame, or any other python object (`other`). -/
inductive PandasObj where
  | index (idx : List Key)
  | series (s : List (Key × CellVal))
  | frame (df : DataFrame)
  | other (repr : String)
deriving DecidableEq

/-- The value returned by `add_vars`: a named series of handles
(Index/Series path) or a new frame (DataFrame path). -/
inductive PdResult where
  | series (name : Option String) (s : List (Key × Nat))
  | frame (df : DataFrame)
deriving DecidableEq

/-- Embedded from src/gurobipy_pandas/api.py, `add_vars`: dispatch on
the kind of `pandas_obj`.  An Index is used directly; a Series
contributes only its index; a DataFrame goes to the table path; anything
else raises `ValueError` before any model interaction. -/
def add_vars (m : GModel) (pandas_obj : PandasObj) (name : Option String)
    (lb ub obj vtype : VSpec) : Except GPError (GModel × PdResult) :=
  match pandas_obj with
  | .index idx =>
    match add_vars_from_index m idx name lb ub obj vtype with
    | .error e => .error e
    | .ok (m2, nm, s) => .ok (m2, .series nm s)
  | .series s =>
    match add_vars_from_index m (s.map Prod.fst) name lb ub obj vtype with
    | .error e => .error e
    | .ok (m2, nm, r) => .ok (m2, .series nm r)
  | .frame df =>
    match add_vars_from_dataframe m df name lb ub obj vtype with
    | .error e => .error e
    | .ok (m2, d) => .ok (m2, .frame d)
  | .other _ => .error (.valueError "`pandas_obj` must be an index, series, or dataframe")

/-- The model-free validation phase of `add_vars`: the batch of requests
each dispatch path would submit, or the validation error it raises.  Used
to state that validation is completed before the external model is
touched. -/
def dispatch_requests (p : PandasObj) (name : Option String) (lb ub obj vtype : VSpec) :
    Except GPError (List VarData) :=
  match p with
  | .index idx => build_var_requests idx none name lb ub obj vtype
  | .series s => build_var_requests (s.map Prod.fst) none name lb ub obj vtype
  | .frame df =>
    match name with
    | none => .error (.configurationError "a column name is required to attach the result")
    | some n =>
      if n ∈ df.cols.map Prod.fst then
        .error (.configurationError ("column " ++ n ++ " already exists"))
      else build_var_requests df.index (some df) (some n) lb ub obj vtype
  | .other _ => .error (.valueError "`pandas_obj` must be an index, series, or dataframe")

/-- An `lhs`/`rhs` argument of `add_constrs`: a series or a constant. -/
inductive SeriesOrConst where
  | col (s : List (Key × ℚ))
  | const (q : ℚ)
deriving DecidableEq

/-- The `sense` argument of `add_constrs`: a single sense symbol or a
per-row series of sense symbols. -/
inductive SenseArg where
  | one (s : String)
  | col (s : List (Key × String))
deriving DecidableEq

/-- The sense symbols accepted for constraints. -/
def validSenses : List String := ["<=", "=", ">="]

/-- The target index of a constraint batch: the index of whichever of
lhs / rhs / sense is a series (section 4.3). -/
def constrTargetIndex (lhs : SeriesOrConst) (sense : SenseArg) (rhs : SeriesOrConst) :
    Option (List Key) :=
  match lhs with
  | .col s => some (s.map Prod.fst)
  | .const _ =>
    match rhs with
    | .col s => some (s.map Prod.fst)
    | .const _ =>
      match sense with
      | .col s => some (s.map Prod.fst)
      | .one _ => none

/-- A series argument is aligned with the target index, or is a
constant. -/
def socIndexOk (t : List Key) : SeriesOrConst → Bool
  | .col s => decide (s.map Prod.fst = t)
  | .const _ => true

/-- A sense series is aligned with the target index, or is a single
symbol. -/
def senseIndexOk (t : List Key) : SenseArg → Bool
  | .col s => decide (s.map Prod.fst = t)
  | .one _ => true

/-- Per-row values of an lhs/rhs argument (a constant broadcasts). -/
def socValues (n : Nat) : SeriesOrConst → List ℚ
  | .col s => s.map Prod.snd
  | .const q => List.replicate n q

/-- Per-row sense symbols (a single symbol broadcasts). -/
def senseValues (n : Nat) : SenseArg → List String
  | .col s => s.map Prod.snd
  | .one x => List.replicate n x

/-- Every sense symbol must be one of the valid symbols. -/
def checkSenses (ss : List String) : Except GPError Unit :=
  if ss.all (fun s => decide (s ∈ validSenses)) then .ok ()
  else .error (.typeError "invalid constraint sense")

/-- Zip per-row constraint data into batch records. -/
def zipConstrData : List ℚ → List String → List ℚ → List (Option String) → List ConstrData
  | a :: as, b :: bs, c :: cs, d :: ds =>
      { clhs := a, csense := b, crhs := c, cname := d } :: zipConstrData as bs cs ds
  | _, _, _, _ => []

/-- Modelled from the spec: the validation phase of constraint creation
(gurobipy_pandas.constraints, section 4.3): determine the target index
(ConfigurationError if no series argument is present), check mutual
alignment (AlignmentError otherwise, per the AlignedColumn rule of
section 4.2), validate senses, generate labels, and assemble the batch.
Takes no model argument. -/
def build_constr_requests (lhs : SeriesOrConst) (sense : SenseArg) (rhs : SeriesOrConst)
    (name : Option String) : Except GPError (List Key × List ConstrData) :=
  match constrTargetIndex lhs sense rhs with
  | none => .error (.configurationError "at least one of lhs, rhs or sense must be a series")
  | some t =>
    if socIndexOk t lhs && socIndexOk t rhs && senseIndexOk t sense then
      match checkSenses (senseValues t.length sense) with
      | .error e => .error e
      | .ok _ =>
        .ok (t, zipConstrData (socValues t.length lhs) (senseValues t.length sense)
                  (socValues t.length rhs) (nameList t name))
    else .error (.alignmentError "constraint series are not mutually aligned")

/-- Modelled from the spec: `add_constrs_from_series` of
gurobipy_pandas.constraints (section 4.3): validate and build the batch,
issue the single batch call, and wrap the handles into a series on the
target index, named `name`. -/
def add_constrs_from_series (m : GModel) (lhs : SeriesOrConst) (sense : SenseArg)
    (rhs : SeriesOrConst) (name : Option String) :
    Except GPError (GModel × Option String × List (Key × Nat)) :=
  match build_constr_requests lhs sense rhs name with
  | .error e => .error e
  | .ok (t, reqs) =>
    match gModelAddConstrs m reqs with
    | .error e => .error e
    | .ok (m2, hs) => .ok (m2, name, t.zip hs)

/-- Embedded from src/gurobipy_pandas/api.py, `add_constrs`: a direct
delegation to `add_constrs_from_series`. -/
def add_constrs (m : GModel) (lhs : SeriesOrConst) (sense : SenseArg) (rhs : SeriesOrConst)
    (name : Option String) :
    Except GPError (GModel × Option String × List (Key × Nat)) :=
  add_constrs_from_series m lhs sense rhs name

/-- `GRB.INFINITY` of gurobipy (1e100). -/
def GRB_INFINITY : ℚ := 10 ^ 100

/-- `GRB.CONTINUOUS` of gurobipy. -/
def GRB_CONTINUOUS : String := "C"

/-- `add_vars` called with every optional keyword argument left at its
default, per the signature in src/gurobipy_pandas/api.py:
`name=None, lb=0.0, ub=GRB.INFINITY, obj=0.0, vtype=GRB.CONTINUOUS`. -/
def add_vars_default (m : GModel) (p : PandasObj) : Except GPError (GModel × PdResult) :=
  add_vars m p none (.const (.num 0)) (.const (.num GRB_INFINITY)) (.const (.num 0))
    (.const (.str GRB_CONTINUOUS))

/-! ## Naming engine lemmas -/

theorem intercalate_go_eq (ss : List String) : ∀ acc : String,
    String.intercalate.go acc "," ss = joinComma (acc :: ss) := by
  induction ss with
  | nil => intro acc; rfl
  | cons a t ih =>
    intro acc
    rw [String.intercalate.go, ih]
    cases t with
    | nil => simp [joinComma, String.append_assoc]
    | cons b u => simp [joinComma, String.append_assoc]

theorem joinComma_eq_intercalate (ss : List String) :
    joinComma ss = String.intercalate "," ss := by
  cases ss with
  | nil => rfl
  | cons a t => rw [String.intercalate, intercalate_go_eq]

theorem labelList_eq_map (b : String) (idx : List Key) :
    labelList b idx = idx.map (fun k => b ++ "[" ++ Key.format k ++ "]") := by
  induction idx with
  | nil => rfl
  | cons k rest ih => simp [labelList, ih]

theorem labelList_length (b : String) (idx : List Key) :
    (labelList b idx).length = idx.length := by
  rw [labelList_eq_map]; exact List.length_map idx _

/-- Claim C2: `generate_labels` agrees with the reference definition of
the claim (None base gives None; otherwise one label per index entry in
index order, `base[key]` for a scalar key and `base[k1,k2,...]` with
comma-joined components for a tuple key), and produces exactly one label
per index entry. -/
theorem c2_generate_labels (idx : List Key) (b : String) (ob : Option String) :
    generate_labels idx ob = labelsSpec idx ob ∧
    generate_labels idx none = none ∧
    ∃ ls, generate_labels idx (some b) = some ls ∧ ls.length = idx.length := by
  refine ⟨?_, rfl, labelList b idx, rfl, labelList_length b idx⟩
  cases ob with
  | none => rfl
  | some s =>
    simp only [generate_labels, labelsSpec, Option.map_some', Option.some.injEq]
    rw [labelList_eq_map]
    apply List.map_congr_left
    intro k _
    cases k with
    | single sc => rfl
    | multi parts => simp [Key.format, joinComma_eq_intercalate]

/-! ## Attribute resolver lemmas -/

/-- Claim C1: resolving an AlignedColumn specification succeeds exactly
when the supplied series' index equals the target index as an ordered
sequence of keys; in particular any non-identity permutation of the
series' index fails with `AlignmentError`.  `resolve` takes no model
argument, so no external-model call is involved in either outcome. -/
theorem c1_aligned_resolution (kind : AttrKind) (c : List (Key × CellVal)) (idx : List Key) :
    ((∃ vals, resolve kind (.aligned c) idx none = .ok vals) ↔ c.map Prod.fst = idx) ∧
    (c.map Prod.fst ≠ idx →
      resolve kind (.aligned c) idx none =
        .error (.alignmentError "series index does not match the target index")) ∧
    (idx.Perm (c.map Prod.fst) → idx ≠ c.map Prod.fst →
      resolve kind (.aligned c) idx none =
        .error (.alignmentError "series index does not match the target index")) := by
  by_cases h : c.map Prod.fst = idx
  · exact ⟨by simp [resolve, h], fun hne => absurd h hne,
      fun _ hne => absurd h.symm hne⟩
  · refine ⟨by simp [resolve, h], fun _ => by simp [resolve, h],
      fun _ _ => by simp [resolve, h]⟩

theorem c1_witness :
    resolve .numeric
      (.aligned [(.single (.int 0), .num 1), (.single (.int 1), .num 1)])
      [.single (.int 1), .single (.int 0)] none =
      .error (.alignmentError "series index does not match the target index") :=
  (c1_aligned_resolution .numeric
      [(.single (.int 0), .num 1), (.single (.int 1), .num 1)]
      [.single (.int 1), .single (.int 0)]).2.2
    (by decide) (by decide)

/-- Claim C4: resolving a Constant specification against an index of
length N yields the constant broadcast to N copies whenever the value
passes the scalar-type check for its attribute slot, for every N
including zero; the scalar-type check is the only validation performed
(its failure is the only error the Constant branch can produce). -/
theorem c4_constant_broadcast (kind : AttrKind) (v : CellVal) (idx : List Key)
    (tbl : Option DataFrame) :
    (kindCheck kind v = true →
      resolve kind (.const v) idx tbl = .ok (List.replicate idx.length v)) ∧
    (kindCheck kind v = false →
      resolve kind (.const v) idx tbl =
        .error (.typeError "constant value has the wrong scalar type for this attribute")) := by
  cases tbl <;> constructor <;> intro h <;> simp [resolve, h]

theorem c4_witness :
    resolve .numeric (.const (.num 5)) [.single (.int 0), .single (.int 2), .single (.int 3)]
      none = .ok (List.replicate 3 (.num 5)) :=
  (c4_constant_broadcast .numeric (.num 5)
      [.single (.int 0), .single (.int 2), .single (.int 3)] none).1 rfl

/-! ## Dispatcher facts (embedded from src/gurobipy_pandas/api.py) -/

/-- Claim C8: calling `add_vars` on a Series gives exactly the result of
calling it on the Series' index with the same arguments: the series
values play no role, only its index is used as the target index. -/
theorem c8_series_index_equivalence (m : GModel) (s : List (Key × CellVal))
    (name : Option String) (lb ub obj vtype : VSpec) :
    add_vars m (.series s) name lb ub obj vtype =
      add_vars m (.index (s.map Prod.fst)) name lb ub obj vtype := rfl

/-- Claim C10: any second argument that is not an Index, Series or
DataFrame makes `add_vars` raise `ValueError` with the exact message of
api.py; the error result carries no model, so the external model is
never involved. -/
theorem c10_value_error (m : GModel) (s : String) (name : Option String)
    (lb ub obj vtype : VSpec) :
    add_vars m (.other s) name lb ub obj vtype =
      .error (.valueError "`pandas_obj` must be an index, series, or dataframe") := rfl

/-! ## Infrastructure: lengths and shapes of the building blocks -/

theorem exMapM_ok_length {f : α → Except GPError β} :
    ∀ {xs : List α} {ys : List β}, exMapM f xs = .ok ys → ys.length = xs.length := by
  intro xs
  induction xs with
  | nil => intro ys h; simp [exMapM] at h; simp [← h]
  | cons x rest ih =>
    intro ys h
    simp only [exMapM] at h
    cases hf : f x with
    | error e => rw [hf] at h; exact absurd h (by simp)
    | ok y =>
      rw [hf] at h
      cases hr : exMapM f rest with
      | error e => rw [hr] at h; exact absurd h (by simp)
      | ok ys2 =>
        rw [hr] at h
        simp only [Except.ok.injEq] at h
        subst h
        simp [ih hr]

theorem exMapM_asNum_replicate (n : Nat) (q : ℚ) :
    exMapM asNum (List.replicate n (.num q)) = .ok (List.replicate n q) := by
  induction n with
  | zero => rfl
  | succ k ih => simp [List.replicate_succ, exMapM, asNum, ih]

theorem exMapM_asVType_replicate (n : Nat) (s : String) (h : s ∈ validVTypes) :
    exMapM asVType (List.replicate n (.str s)) = .ok (List.replicate n s) := by
  induction n with
  | zero => rfl
  | succ k ih => simp [List.replicate_succ, exMapM, asVType, h, ih]

theorem nameList_length (idx : List Key) (base : Option String) :
    (nameList idx base).length = idx.length := by
  cases base with
  | none => simp [nameList, generate_labels]
  | some b => simp [nameList, generate_labels, labelList_length]

theorem nameList_none (idx : List Key) :
    nameList idx none = List.replicate idx.length none := rfl

theorem zipVarData_length : ∀ (as bs cs : List ℚ) (ds : List String)
    (es : List (Option String)),
    as.length = bs.length → as.length = cs.length → as.length = ds.length →
    as.length = es.length → (zipVarData as bs cs ds es).length = as.length := by
  intro as
  induction as with
  | nil => intro bs cs ds es _ _ _ _; simp [zipVarData]
  | cons a at' ih =>
    intro bs cs ds es h1 h2 h3 h4
    cases bs with | nil => simp at h1 | cons b bt =>
    cases cs with | nil => simp at h2 | cons c ct =>
    cases ds with | nil => simp at h3 | cons d dt =>
    cases es with | nil => simp at h4 | cons e et =>
    simp only [zipVarData, List.length_cons]
    rw [ih bt ct dt et (by simpa using h1) (by simpa using h2) (by simpa using h3)
      (by simpa using h4)]

theorem zipVarData_map_lb : ∀ (as bs cs : List ℚ) (ds : List String)
    (es : List (Option String)),
    as.length = bs.length → as.length = cs.length → as.length = ds.length →
    as.length = es.length → (zipVarData as bs cs ds es).map VarData.lb = as := by
  intro as
  induction as with
  | nil => intro bs cs ds es _ _ _ _; simp [zipVarData]
  | cons a at' ih =>
    intro bs cs ds es h1 h2 h3 h4
    cases bs with | nil => simp at h1 | cons b bt =>
    cases cs with | nil => simp at h2 | cons c ct =>
    cases ds with | nil => simp at h3 | cons d dt =>
    cases es with | nil => simp at h4 | cons e et =>
    have htail := ih bt ct dt et (by simpa using h1) (by simpa using h2) (by simpa using h3)
      (by simpa using h4)
    simp [zipVarData, htail]

theorem zipVarData_mem : ∀ (as bs cs : List ℚ) (ds : List String)
    (es : List (Option String)) (v : VarData),
    v ∈ zipVarData as bs cs ds es →
    v.lb ∈ as ∧ v.ub ∈ bs ∧ v.obj ∈ cs ∧ v.vtype ∈ ds ∧ v.name ∈ es := by
  intro as
  induction as with
  | nil => intro bs cs ds es v h; simp [zipVarData] at h
  | cons a at' ih =>
    intro bs cs ds es v h
    cases bs with | nil => simp [zipVarData] at h | cons b bt =>
    cases cs with | nil => simp [zipVarData] at h | cons c ct =>
    cases ds with | nil => simp [zipVarData] at h | cons d dt =>
    cases es with | nil => simp [zipVarData] at h | cons e et =>
    simp only [zipVarData, List.mem_cons] at h
    cases h with
    | inl h => subst h; simp
    | inr h =>
      obtain ⟨m1, m2, m3, m4, m5⟩ := ih bt ct dt et v h
      exact ⟨List.mem_cons_of_mem _ m1, List.mem_cons_of_mem _ m2,
        List.mem_cons_of_mem _ m3, List.mem_cons_of_mem _ m4, List.mem_cons_of_mem _ m5⟩

theorem lookupCol_mem : ∀ (cols : List (String × List CellVal)) (n : String)
    (col : List CellVal), lookupCol n cols = some col → (n, col) ∈ cols := by
  intro cols
  induction cols with
  | nil => intro n col h; simp [lookupCol] at h
  | cons p rest ih =>
    intro n col h
    obtain ⟨pn, pcol⟩ := p
    simp only [lookupCol] at h
    by_cases he : pn = n
    · rw [if_pos he] at h
      simp only [Option.some.injEq] at h
      subst he; subst h
      exact List.mem_cons_self _ _
    · rw [if_neg he] at h
      exact List.mem_cons_of_mem _ (ih n col h)

theorem lookupCol_append_left : ∀ (cols rest : List (String × List CellVal)) (n : String)
    (col : List CellVal), lookupCol n cols = some col → lookupCol n (cols ++ rest) = some col := by
  intro cols
  induction cols with
  | nil => intro rest n col h; simp [lookupCol] at h
  | cons p t ih =>
    intro rest n col h
    obtain ⟨pn, pcol⟩ := p
    simp only [lookupCol] at h ⊢
    by_cases he : pn = n
    · rwa [if_pos he] at h ⊢
    · rw [if_neg he] at h ⊢
      exact ih rest n col h

theorem lookupCol_append_self : ∀ (cols : List (String × List CellVal)) (n : String)
    (v : List CellVal), n ∉ cols.map Prod.fst → lookupCol n (cols ++ [(n, v)]) = some v := by
  intro cols
  induction cols with
  | nil => intro n v _; simp [lookupCol]
  | cons p t ih =>
    intro n v hn
    obtain ⟨pn, pcol⟩ := p
    simp only [List.map_cons, List.mem_cons, not_or] at hn
    have hne : ¬ pn = n := fun h => hn.1 h.symm
    simp only [List.cons_append, lookupCol, if_neg hne]
    exact ih n v hn.2

theorem resolve_ok_length (kind : AttrKind) (spec : VSpec) (idx : List Key)
    (tbl : Option DataFrame) (vs : List CellVal)
    (htbl : ∀ t, tbl = some t → t.wf ∧ t.index = idx) :
    resolve kind spec idx tbl = .ok vs → vs.length = idx.length := by
  intro h
  cases spec with
  | const v =>
    cases tbl <;>
      · simp only [resolve] at h
        by_cases hk : kindCheck kind v = true
        · rw [if_pos hk] at h
          simp only [Except.ok.injEq] at h
          simp [← h]
        · rw [if_neg hk] at h; exact absurd h (by simp)
  | colRef c =>
    cases tbl with
    | none => simp [resolve] at h
    | some t =>
      simp only [resolve] at h
      cases hl : lookupCol c t.cols with
      | none => rw [hl] at h; exact absurd h (by simp)
      | some col =>
        rw [hl] at h
        simp only [Except.ok.injEq] at h
        subst h
        obtain ⟨hwf, hidx⟩ := htbl t rfl
        rw [hwf (c, col) (lookupCol_mem t.cols c col hl), hidx]
  | aligned s =>
    cases tbl with
    | some t => simp [resolve] at h
    | none =>
      simp only [resolve] at h
      by_cases he : s.map Prod.fst = idx
      · rw [if_pos he] at h
        simp only [Except.ok.injEq] at h
        subst h
        rw [List.length_map, ← he, List.length_map]
      · rw [if_neg he] at h; exact absurd h (by simp)

theorem resolveNum_ok_length (spec : VSpec) (idx : List Key) (tbl : Option DataFrame)
    (qs : List ℚ) (htbl : ∀ t, tbl = some t → t.wf ∧ t.index = idx) :
    resolveNum spec idx tbl = .ok qs → qs.length = idx.length := by
  intro h
  simp only [resolveNum] at h
  cases hr : resolve .numeric spec idx tbl with
  | error e => rw [hr] at h; exact absurd h (by simp)
  | ok vs =>
    rw [hr] at h
    rw [exMapM_ok_length h]
    exact resolve_ok_length _ _ _ _ _ htbl hr

theorem resolveVType_ok_length (spec : VSpec) (idx : List Key) (tbl : Option DataFrame)
    (ss : List String) (htbl : ∀ t, tbl = some t → t.wf ∧ t.index = idx) :
    resolveVType spec idx tbl = .ok ss → ss.length = idx.length := by
  intro h
  simp only [resolveVType] at h
  cases hr : resolve .typeCode spec idx tbl with
  | error e => rw [hr] at h; exact absurd h (by simp)
  | ok vs =>
    rw [hr] at h
    rw [exMapM_ok_length h]
    exact resolve_ok_length _ _ _ _ _ htbl hr

theorem build_var_requests_ok_ex (idx : List Key) (tbl : Option DataFrame)
    (name : Option String) (lb ub obj vtype : VSpec) (reqs : List VarData)
    (h : build_var_requests idx tbl name lb ub obj vtype = .ok reqs) :
    ∃ lbn ubn objn vtn, resolveNum lb idx tbl = .ok lbn ∧ resolveNum ub idx tbl = .ok ubn ∧
      resolveNum obj idx tbl = .ok objn ∧ resolveVType vtype idx tbl = .ok vtn ∧
      reqs = zipVarData lbn ubn objn vtn (nameList idx name) := by
  simp only [build_var_requests] at h
  cases h1 : resolveNum lb idx tbl with
  | error e => rw [h1] at h; exact absurd h (by simp)
  | ok lbn =>
    rw [h1] at h
    cases h2 : resolveNum ub idx tbl with
    | error e => rw [h2] at h; exact absurd h (by simp)
    | ok ubn =>
      rw [h2] at h
      cases h3 : resolveNum obj idx tbl with
      | error e => rw [h3] at h; exact absurd h (by simp)
      | ok objn =>
        rw [h3] at h
        cases h4 : resolveVType vtype idx tbl with
        | error e => rw [h4] at h; exact absurd h (by simp)
        | ok vtn =>
          rw [h4] at h
          simp only [Except.ok.injEq] at h
          exact ⟨lbn, ubn, objn, vtn, rfl, rfl, rfl, rfl, h.symm⟩

theorem build_var_requests_ok_length (idx : List Key) (tbl : Option DataFrame)
    (name : Option String) (lb ub obj vtype : VSpec) (reqs : List VarData)
    (htbl : ∀ t, tbl = some t → t.wf ∧ t.index = idx)
    (h : build_var_requests idx tbl name lb ub obj vtype = .ok reqs) :
    reqs.length = idx.length := by
  obtain ⟨lbn, ubn, objn, vtn, h1, h2, h3, h4, hreq⟩ := build_var_requests_ok_ex _ _ _ _ _ _ _ _ h
  have l1 := resolveNum_ok_length _ _ _ _ htbl h1
  have l2 := resolveNum_ok_length _ _ _ _ htbl h2
  have l3 := resolveNum_ok_length _ _ _ _ htbl h3
  have l4 := resolveVType_ok_length _ _ _ _ htbl h4
  have l5 := nameList_length idx name
  rw [hreq, zipVarData_length lbn ubn objn vtn (nameList idx name) (by omega) (by omega)
    (by omega) (by omega)]
  exact l1

theorem gModelAddVars_ok (m : GModel) (reqs : List VarData) (m2 : GModel) (hs : List Nat)
    (h : gModelAddVars m reqs = .ok (m2, hs)) :
    m2 = { m with pending := m.pending ++ reqs } ∧
    hs = (List.range reqs.length).map (fun i => i + m.varCount) := by
  simp only [gModelAddVars] at h
  by_cases hc : batchNamesOk (allVarNames m) (reqs.map VarData.name) = true
  · rw [if_pos hc] at h
    simp only [Except.ok.injEq, Prod.mk.injEq] at h
    exact ⟨h.1.symm, h.2.symm⟩
  · rw [if_neg hc] at h
    exact absurd h (by simp)

theorem range_map_add_nodup (n c : Nat) :
    (((List.range n).map (fun i => i + c)).Nodup) ∧
    (∀ h ∈ (List.range n).map (fun i => i + c), c ≤ h) := by
  constructor
  · exact (List.nodup_range n).map (fun a b hab => by omega)
  · intro h hmem
    simp only [List.mem_map] at hmem
    obtain ⟨i, _, hi⟩ := hmem
    omega

theorem seriesGetAttr_lb : ∀ (reqs pre : List VarData) (cc cp : List ConstrData)
    (ks : List Key), ks.length = reqs.length →
    seriesGetAttr { committed := pre ++ reqs, pending := [], ccommitted := cc, cpending := cp }
      (ks.zip ((List.range reqs.length).map (fun i => i + pre.length))) "lb" =
      .ok (ks.zip (reqs.map (fun r => CellVal.num r.lb))) := by
  intro reqs
  induction reqs with
  | nil =>
    intro pre cc cp ks hlen
    have hks : ks = [] := List.length_eq_zero.mp hlen
    subst hks
    rfl
  | cons r rest ih =>
    intro pre cc cp ks hlen
    cases ks with
    | nil => simp at hlen
    | cons k kt =>
      have hkt : kt.length = rest.length := by simpa using hlen
      have hmap : (List.range (rest.length + 1)).map (fun i => i + pre.length) =
          pre.length :: (List.range rest.length).map (fun i => i + (pre ++ [r]).length) := by
        rw [List.range_succ_eq_map]
        simp only [List.map_cons, Nat.zero_add, List.map_map]
        refine congrArg _ (List.map_congr_left ?_)
        intro i _
        simp only [Function.comp_apply, List.length_append, List.length_cons,
          List.length_nil]
        omega
      have hget : (pre ++ r :: rest)[pre.length]? = some r := by
        rw [List.getElem?_append_right (Nat.le_refl _)]
        simp
      have hread : gModelRead ⟨pre ++ r :: rest, [], cc, cp⟩ pre.length "lb" =
          .ok (.num r.lb) := by
        simp [gModelRead, hget]
      have htail := ih (pre ++ [r]) cc cp kt hkt
      rw [List.append_assoc] at htail
      simp only [List.singleton_append] at htail
      simp only [List.length_cons, hmap, List.zip_cons_cons, List.map_cons,
        seriesGetAttr, hread, htail]

/-! ## Table-path claims -/

/-- Claim C5: on the table path with a non-colliding name, `add_vars`
returns a new frame holding exactly the input's columns plus one result
column named `name`, with one fresh handle per input row, on the input's
index; existing columns are looked up unchanged.  The input frame itself
is untouched: the embedding is pure and `T` appears unmodified in the
conclusion. -/
theorem c5_frame_effect (m : GModel) (T : DataFrame) (nm : String) (lb ub obj vtype : VSpec)
    (m2 : GModel) (df : DataFrame) (hwf : T.wf)
    (h : add_vars m (.frame T) (some nm) lb ub obj vtype = .ok (m2, .frame df)) :
    ∃ hs : List Nat,
      df.index = T.index ∧
      df.cols = T.cols ++ [(nm, hs.map CellVal.handle)] ∧
      df.cols.map Prod.fst = T.cols.map Prod.fst ++ [nm] ∧
      hs.length = T.index.length ∧
      (∀ c col, lookupCol c T.cols = some col → lookupCol c df.cols = some col) := by
  simp only [add_vars] at h
  cases hin : add_vars_from_dataframe m T (some nm) lb ub obj vtype with
  | error e => rw [hin] at h; exact absurd h (by simp)
  | ok p =>
    obtain ⟨m2x, d⟩ := p
    rw [hin] at h
    simp only [Except.ok.injEq, Prod.mk.injEq, PdResult.frame.injEq] at h
    obtain ⟨hm, hd⟩ := h
    simp only [add_vars_from_dataframe] at hin
    by_cases hmem : nm ∈ T.cols.map Prod.fst
    · rw [if_pos hmem] at hin; exact absurd hin (by simp)
    · rw [if_neg hmem] at hin
      cases hb : build_var_requests T.index (some T) (some nm) lb ub obj vtype with
      | error e => simp only [hb] at hin; exact absurd hin (by simp)
      | ok reqs =>
        simp only [hb] at hin
        cases hg : gModelAddVars m reqs with
        | error e => simp only [hg] at hin; exact absurd hin (by simp)
        | ok p2 =>
          obtain ⟨m2y, hs⟩ := p2
          simp only [hg] at hin
          simp only [Except.ok.injEq, Prod.mk.injEq] at hin
          obtain ⟨hm2, hdf⟩ := hin
          refine ⟨hs, ?_, ?_, ?_, ?_, ?_⟩
          · rw [← hd, ← hdf]
          · rw [← hd, ← hdf]
          · rw [← hd, ← hdf]; simp
          · have hlenreqs := build_var_requests_ok_length T.index (some T) (some nm)
              lb ub obj vtype reqs
              (fun t ht => by cases ht; exact ⟨hwf, rfl⟩) hb
            have := (gModelAddVars_ok m reqs m2y hs hg).2
            rw [this]
            simp [hlenreqs]
          · intro c col hc
            rw [← hd, ← hdf]
            exact lookupCol_append_left T.cols _ c col hc

theorem c5_witness :
    ∃ hs : List Nat,
      (DataFrame.mk [Key.single (.int 0)]
        [("a", [CellVal.num 1]), ("x", [CellVal.handle 0])]).index =
        (DataFrame.mk [Key.single (.int 0)] [("a", [CellVal.num 1])]).index ∧
      (DataFrame.mk [Key.single (.int 0)]
        [("a", [CellVal.num 1]), ("x", [CellVal.handle 0])]).cols =
        (DataFrame.mk [Key.single (.int 0)] [("a", [CellVal.num 1])]).cols ++
          [("x", hs.map CellVal.handle)] ∧
      (DataFrame.mk [Key.single (.int 0)]
        [("a", [CellVal.num 1]), ("x", [CellVal.handle 0])]).cols.map Prod.fst =
        (DataFrame.mk [Key.single (.int 0)] [("a", [CellVal.num 1])]).cols.map Prod.fst ++
          ["x"] ∧
      hs.length = (DataFrame.mk [Key.single (.int 0)] [("a", [CellVal.num 1])]).index.length ∧
      (∀ c col,
        lookupCol c (DataFrame.mk [Key.single (.int 0)] [("a", [CellVal.num 1])]).cols =
          some col →
        lookupCol c (DataFrame.mk [Key.single (.int 0)]
          [("a", [CellVal.num 1]), ("x", [CellVal.handle 0])]).cols = some col) :=
  c5_frame_effect (GModel.mk [] [] [] [])
    (DataFrame.mk [Key.single (.int 0)] [("a", [CellVal.num 1])]) "x"
    (.const (.num 0)) (.const (.num 1)) (.const (.num 0)) (.const (.str "C"))
    (GModel.mk [] [VarData.mk 0 1 0 "C" (some "x[0]")] [] [])
    (DataFrame.mk [Key.single (.int 0)] [("a", [CellVal.num 1]), ("x", [CellVal.handle 0])])
    (by decide) rfl

/-- Claim C6: on the table path, a missing result-column name or a name
colliding with an existing column raises `ConfigurationError`; the error
result carries no model, so no variables are created in the external
model. -/
theorem c6_name_errors (m : GModel) (T : DataFrame) (lb ub obj vtype : VSpec) :
    (add_vars m (.frame T) none lb ub obj vtype =
      .error (.configurationError "a column name is required to attach the result")) ∧
    (∀ nm, nm ∈ T.cols.map Prod.fst →
      add_vars m (.frame T) (some nm) lb ub obj vtype =
        .error (.configurationError ("column " ++ nm ++ " already exists"))) := by
  constructor
  · rfl
  · intro nm hmem
    simp [add_vars, add_vars_from_dataframe, if_pos hmem]

theorem c6_witness :
    add_vars (GModel.mk [] [] [] [])
      (.frame (DataFrame.mk [Key.single (.int 0)] [("a", [CellVal.num 1])])) (some "a")
      (.const (.num 0)) (.const (.num 1)) (.const (.num 0)) (.const (.str "C")) =
      .error (.configurationError ("column " ++ "a" ++ " already exists")) :=
  (c6_name_errors (GModel.mk [] [] [] [])
      (DataFrame.mk [Key.single (.int 0)] [("a", [CellVal.num 1])])
      (.const (.num 0)) (.const (.num 1)) (.const (.num 0)) (.const (.str "C"))).2
    "a" (by decide)

theorem resolveNum_const_num (q : ℚ) (idx : List Key) (tbl : Option DataFrame) :
    resolveNum (.const (.num q)) idx tbl = .ok (List.replicate idx.length q) := by
  cases tbl <;> simp [resolveNum, resolve, kindCheck, exMapM_asNum_replicate]

theorem resolveVType_const (s : String) (idx : List Key) (tbl : Option DataFrame)
    (h : s ∈ validVTypes) :
    resolveVType (.const (.str s)) idx tbl = .ok (List.replicate idx.length s) := by
  cases tbl <;> simp [resolveVType, resolve, kindCheck, h, exMapM_asVType_replicate _ _ h]

/-- Claim C3: on the table path, `add_vars` produces a result column of
exactly one fresh handle per row of `T`, aligned with `T`'s index, and
after the external model's commit step the accessor's lower-bound read
on that column returns, value for value and index for index, the lb
column that was resolved at creation time. -/
theorem c3_round_trip (m : GModel) (T : DataFrame) (nm : String) (lb ub obj vtype : VSpec)
    (m2 : GModel) (df : DataFrame) (lbs : List ℚ) (hwf : T.wf)
    (hlb : resolveNum lb T.index (some T) = .ok lbs)
    (h : add_vars m (.frame T) (some nm) lb ub obj vtype = .ok (m2, .frame df)) :
    ∃ hs : List Nat,
      lookupCol nm df.cols = some (hs.map CellVal.handle) ∧
      df.index = T.index ∧
      hs.length = T.index.length ∧
      hs.Nodup ∧
      (∀ hh ∈ hs, m.varCount ≤ hh) ∧
      seriesGetAttr (gModelUpdate m2) (T.index.zip hs) "lb" =
        .ok (T.index.zip (lbs.map CellVal.num)) := by
  simp only [add_vars] at h
  cases hin : add_vars_from_dataframe m T (some nm) lb ub obj vtype with
  | error e => rw [hin] at h; exact absurd h (by simp)
  | ok p =>
    obtain ⟨m2x, d⟩ := p
    rw [hin] at h
    simp only [Except.ok.injEq, Prod.mk.injEq, PdResult.frame.injEq] at h
    obtain ⟨hm, hd⟩ := h
    simp only [add_vars_from_dataframe] at hin
    by_cases hmem : nm ∈ T.cols.map Prod.fst
    · rw [if_pos hmem] at hin; exact absurd hin (by simp)
    · rw [if_neg hmem] at hin
      cases hb : build_var_requests T.index (some T) (some nm) lb ub obj vtype with
      | error e => simp only [hb] at hin; exact absurd hin (by simp)
      | ok reqs =>
        simp only [hb] at hin
        cases hg : gModelAddVars m reqs with
        | error e => simp only [hg] at hin; exact absurd hin (by simp)
        | ok p2 =>
          obtain ⟨m2y, hs⟩ := p2
          simp only [hg] at hin
          simp only [Except.ok.injEq, Prod.mk.injEq] at hin
          obtain ⟨hm2, hdf⟩ := hin
          obtain ⟨hmodel, hhandles⟩ := gModelAddVars_ok m reqs m2y hs hg
          have htblOK : ∀ t, (some T : Option DataFrame) = some t → t.wf ∧ t.index = T.index :=
            fun t ht => by cases ht; exact ⟨hwf, rfl⟩
          obtain ⟨lbn, ubn, objn, vtn, h1, h2, h3, h4, hreq⟩ :=
            build_var_requests_ok_ex T.index (some T) (some nm) lb ub obj vtype reqs hb
          have hlbn : lbn = lbs := by
            rw [h1] at hlb
            simpa using hlb
          have l1 := resolveNum_ok_length _ _ _ _ htblOK h1
          have l2 := resolveNum_ok_length _ _ _ _ htblOK h2
          have l3 := resolveNum_ok_length _ _ _ _ htblOK h3
          have l4 := resolveVType_ok_length _ _ _ _ htblOK h4
          have l5 := nameList_length T.index (some nm)
          have hlenreqs : reqs.length = T.index.length := by
            rw [hreq, zipVarData_length lbn ubn objn vtn (nameList T.index (some nm))
              (by omega) (by omega) (by omega) (by omega)]
            exact l1
          have hmaplb : reqs.map VarData.lb = lbs := by
            rw [hreq, zipVarData_map_lb lbn ubn objn vtn (nameList T.index (some nm))
              (by omega) (by omega) (by omega) (by omega)]
            exact hlbn
          have hprelen : (m.committed ++ m.pending).length = m.varCount := by
            simp [GModel.varCount]
          have hread := seriesGetAttr_lb reqs (m.committed ++ m.pending)
            (m.ccommitted ++ m.cpending) [] T.index (by omega)
          rw [hprelen] at hread
          have hupdate : gModelUpdate m2 =
              ⟨(m.committed ++ m.pending) ++ reqs, [], m.ccommitted ++ m.cpending, []⟩ := by
            rw [← hm, ← hm2, hmodel]
            simp [gModelUpdate, List.append_assoc]
          have hvals : reqs.map (fun r => CellVal.num r.lb) = lbs.map CellVal.num := by
            rw [← hmaplb, List.map_map]
            rfl
          refine ⟨hs, ?_, ?_, ?_, ?_, ?_, ?_⟩
          · rw [← hd, ← hdf]
            exact lookupCol_append_self T.cols nm _ hmem
          · rw [← hd, ← hdf]
          · rw [hhandles]; simp [hlenreqs]
          · rw [hhandles]; exact (range_map_add_nodup reqs.length m.varCount).1
          · rw [hhandles]; exact (range_map_add_nodup reqs.length m.varCount).2
          · rw [hupdate, hhandles, ← hvals]
            exact hread

theorem c3_witness :
    ∃ hs : List Nat,
      lookupCol "x" (DataFrame.mk [Key.single (.int 0)]
        [("a", [CellVal.num 1]), ("x", [CellVal.handle 0])]).cols =
        some (hs.map CellVal.handle) ∧
      (DataFrame.mk [Key.single (.int 0)]
        [("a", [CellVal.num 1]), ("x", [CellVal.handle 0])]).index =
        (DataFrame.mk [Key.single (.int 0)] [("a", [CellVal.num 1])]).index ∧
      hs.length = (DataFrame.mk [Key.single (.int 0)] [("a", [CellVal.num 1])]).index.length ∧
      hs.Nodup ∧
      (∀ hh ∈ hs, (GModel.mk [] [] [] []).varCount ≤ hh) ∧
      seriesGetAttr
        (gModelUpdate (GModel.mk [] [VarData.mk 1 2 0 "C" (some "x[0]")] [] []))
        ((DataFrame.mk [Key.single (.int 0)] [("a", [CellVal.num 1])]).index.zip hs) "lb" =
        .ok ((DataFrame.mk [Key.single (.int 0)]
          [("a", [CellVal.num 1])]).index.zip (([1] : List ℚ).map CellVal.num)) :=
  c3_round_trip (GModel.mk [] [] [] [])
    (DataFrame.mk [Key.single (.int 0)] [("a", [CellVal.num 1])]) "x"
    (.colRef "a") (.const (.num 2)) (.const (.num 0)) (.const (.str "C"))
    (GModel.mk [] [VarData.mk 1 2 0 "C" (some "x[0]")] [] [])
    (DataFrame.mk [Key.single (.int 0)] [("a", [CellVal.num 1]), ("x", [CellVal.handle 0])])
    [1] (by decide) rfl rfl

/-- Claim C9: `add_vars` called with the optional keyword arguments left
out behaves as if called with name=None, lb=0.0, ub=GRB.INFINITY,
obj=0.0, vtype=GRB.CONTINUOUS (the defaults in api.py), and every
variable created that way has lower bound 0, upper bound GRB.INFINITY,
objective coefficient 0 and continuous type. -/
theorem c9_defaults (m : GModel) (p : PandasObj) (idx : List Key) (m2 : GModel)
    (r : PdResult) :
    add_vars_default m p =
      add_vars m p none (.const (.num 0)) (.const (.num GRB_INFINITY)) (.const (.num 0))
        (.const (.str GRB_CONTINUOUS)) ∧
    (add_vars_default m (.index idx) = .ok (m2, r) →
      m2.committed = m.committed ∧
      ∃ reqs, m2.pending = m.pending ++ reqs ∧ reqs.length = idx.length ∧
        ∀ v ∈ reqs, v.lb = 0 ∧ v.ub = GRB_INFINITY ∧ v.obj = 0 ∧
          v.vtype = GRB_CONTINUOUS) := by
  refine ⟨rfl, ?_⟩
  intro h
  simp only [add_vars_default, add_vars, add_vars_from_index] at h
  have h1 := resolveNum_const_num 0 idx none
  have h2 := resolveNum_const_num GRB_INFINITY idx none
  have h4 := resolveVType_const GRB_CONTINUOUS idx none (by decide)
  simp only [build_var_requests, h1, h2, h4, nameList_none] at h
  cases hg : gModelAddVars m (zipVarData (List.replicate idx.length 0)
      (List.replicate idx.length GRB_INFINITY) (List.replicate idx.length 0)
      (List.replicate idx.length GRB_CONTINUOUS) (List.replicate idx.length none)) with
  | error e => rw [hg] at h; exact absurd h (by simp)
  | ok p2 =>
    obtain ⟨m2y, hs⟩ := p2
    rw [hg] at h
    simp only [Except.ok.injEq, Prod.mk.injEq] at h
    obtain ⟨hm2, _⟩ := h
    obtain ⟨hmodel, _⟩ := gModelAddVars_ok m _ m2y hs hg
    subst hm2
    rw [hmodel]
    refine ⟨rfl, _, rfl, ?_, ?_⟩
    · rw [zipVarData_length] <;> simp
    · intro v hv
      obtain ⟨f1, f2, f3, f4, _⟩ := zipVarData_mem _ _ _ _ _ v hv
      exact ⟨List.eq_of_mem_replicate f1, List.eq_of_mem_replicate f2,
        List.eq_of_mem_replicate f3, List.eq_of_mem_replicate f4⟩

theorem c9_witness :
    (GModel.mk [] [VarData.mk 0 GRB_INFINITY 0 GRB_CONTINUOUS none] [] []).committed =
      (GModel.mk [] [] [] []).committed ∧
    ∃ reqs, (GModel.mk [] [VarData.mk 0 GRB_INFINITY 0 GRB_CONTINUOUS none] [] []).pending =
      (GModel.mk [] [] [] []).pending ++ reqs ∧
      reqs.length = [Key.single (.int 0)].length ∧
      ∀ v ∈ reqs, v.lb = 0 ∧ v.ub = GRB_INFINITY ∧ v.obj = 0 ∧ v.vtype = GRB_CONTINUOUS :=
  (c9_defaults (GModel.mk [] [] [] []) (.index [Key.single (.int 0)])
      [Key.single (.int 0)]
      (GModel.mk [] [VarData.mk 0 GRB_INFINITY 0 GRB_CONTINUOUS none] [] [])
      (.series none [(Key.single (.int 0), 0)])).2 rfl

/-! ## Fail-fast atomicity: error classification -/

theorem asNum_error (v : CellVal) (e : GPError) (h : asNum v = .error e) :
    e.isValidation = true := by
  cases v with
  | num q => exact absurd h (by simp [asNum])
  | str s =>
    simp only [asNum, Except.error.injEq] at h
    rw [← h]; rfl
  | handle hh =>
    simp only [asNum, Except.error.injEq] at h
    rw [← h]; rfl

theorem asVType_error (v : CellVal) (e : GPError) (h : asVType v = .error e) :
    e.isValidation = true := by
  cases v with
  | str s =>
    simp only [asVType] at h
    by_cases hm : s ∈ validVTypes
    · rw [if_pos hm] at h; exact absurd h (by simp)
    · rw [if_neg hm] at h
      simp only [Except.error.injEq] at h
      rw [← h]; rfl
  | num q =>
    simp only [asVType, Except.error.injEq] at h
    rw [← h]; rfl
  | handle hh =>
    simp only [asVType, Except.error.injEq] at h
    rw [← h]; rfl

theorem exMapM_error {f : α → Except GPError β}
    (hf : ∀ x e, f x = .error e → e.isValidation = true) :
    ∀ (xs : List α) (e : GPError), exMapM f xs = .error e → e.isValidation = true := by
  intro xs
  induction xs with
  | nil => intro e h; simp [exMapM] at h
  | cons x rest ih =>
    intro e h
    simp only [exMapM] at h
    cases hx : f x with
    | error e2 =>
      rw [hx] at h
      simp only [Except.error.injEq] at h
      rw [← h]
      exact hf x e2 hx
    | ok y =>
      rw [hx] at h
      cases hr : exMapM f rest with
      | error e2 =>
        rw [hr] at h
        simp only [Except.error.injEq] at h
        rw [← h]
        exact ih e2 hr
      | ok ys => rw [hr] at h; exact absurd h (by simp)

theorem resolve_error (kind : AttrKind) (spec : VSpec) (idx : List Key)
    (tbl : Option DataFrame) (e : GPError) (h : resolve kind spec idx tbl = .error e) :
    e.isValidation = true := by
  cases spec with
  | const v =>
    cases tbl <;>
      · simp only [resolve] at h
        by_cases hk : kindCheck kind v = true
        · rw [if_pos hk] at h; exact absurd h (by simp)
        · rw [if_neg hk] at h
          simp only [Except.error.injEq] at h
          rw [← h]; rfl
  | colRef c =>
    cases tbl with
    | none =>
      simp only [resolve, Except.error.injEq] at h
      rw [← h]; rfl
    | some t =>
      simp only [resolve] at h
      cases hl : lookupCol c t.cols with
      | some col => rw [hl] at h; exact absurd h (by simp)
      | none =>
        rw [hl] at h
        simp only [Except.error.injEq] at h
        rw [← h]; rfl
  | aligned s =>
    cases tbl with
    | some t =>
      simp only [resolve, Except.error.injEq] at h
      rw [← h]; rfl
    | none =>
      simp only [resolve] at h
      by_cases he : s.map Prod.fst = idx
      · rw [if_pos he] at h; exact absurd h (by simp)
      · rw [if_neg he] at h
        simp only [Except.error.injEq] at h
        rw [← h]; rfl

theorem resolveNum_error (spec : VSpec) (idx : List Key) (tbl : Option DataFrame)
    (e : GPError) (h : resolveNum spec idx tbl = .error e) : e.isValidation = true := by
  simp only [resolveNum] at h
  cases hr : resolve .numeric spec idx tbl with
  | error e2 =>
    rw [hr] at h
    simp only [Except.error.injEq] at h
    rw [← h]
    exact resolve_error _ _ _ _ _ hr
  | ok vs =>
    rw [hr] at h
    exact exMapM_error asNum_error vs e h

theorem resolveVType_error (spec : VSpec) (idx : List Key) (tbl : Option DataFrame)
    (e : GPError) (h : resolveVType spec idx tbl = .error e) : e.isValidation = true := by
  simp only [resolveVType] at h
  cases hr : resolve .typeCode spec idx tbl with
  | error e2 =>
    rw [hr] at h
    simp only [Except.error.injEq] at h
    rw [← h]
    exact resolve_error _ _ _ _ _ hr
  | ok vs =>
    rw [hr] at h
    exact exMapM_error asVType_error vs e h

theorem build_var_requests_error (idx : List Key) (tbl : Option DataFrame)
    (name : Option String) (lb ub obj vtype : VSpec) (e : GPError)
    (h : build_var_requests idx tbl name lb ub obj vtype = .error e) :
    e.isValidation = true := by
  simp only [build_var_requests] at h
  cases h1 : resolveNum lb idx tbl with
  | error e2 =>
    rw [h1] at h
    simp only [Except.error.injEq] at h
    rw [← h]
    exact resolveNum_error _ _ _ _ h1
  | ok lbn =>
    rw [h1] at h
    cases h2 : resolveNum ub idx tbl with
    | error e2 =>
      rw [h2] at h
      simp only [Except.error.injEq] at h
      rw [← h]
      exact resolveNum_error _ _ _ _ h2
    | ok ubn =>
      rw [h2] at h
      cases h3 : resolveNum obj idx tbl with
      | error e2 =>
        rw [h3] at h
        simp only [Except.error.injEq] at h
        rw [← h]
        exact resolveNum_error _ _ _ _ h3
      | ok objn =>
        rw [h3] at h
        cases h4 : resolveVType vtype idx tbl with
        | error e2 =>
          rw [h4] at h
          simp only [Except.error.injEq] at h
          rw [← h]
          exact resolveVType_error _ _ _ _ h4
        | ok vtn => rw [h4] at h; exact absurd h (by simp)

theorem dispatch_requests_error (p : PandasObj) (name : Option String)
    (lb ub obj vtype : VSpec) (e : GPError)
    (h : dispatch_requests p name lb ub obj vtype = .error e) : e.isValidation = true := by
  cases p with
  | index idx => exact build_var_requests_error _ _ _ _ _ _ _ _ h
  | series s => exact build_var_requests_error _ _ _ _ _ _ _ _ h
  | frame df =>
    cases name with
    | none =>
      simp only [dispatch_requests, Except.error.injEq] at h
      rw [← h]; rfl
    | some n =>
      simp only [dispatch_requests] at h
      by_cases hmem : n ∈ df.cols.map Prod.fst
      · rw [if_pos hmem] at h
        simp only [Except.error.injEq] at h
        rw [← h]; rfl
      · rw [if_neg hmem] at h
        exact build_var_requests_error _ _ _ _ _ _ _ _ h
  | other s =>
    simp only [dispatch_requests, Except.error.injEq] at h
    rw [← h]; rfl

theorem gModelAddVars_error (m : GModel) (reqs : List VarData) (e : GPError)
    (h : gModelAddVars m reqs = .error e) :
    e = .externalModelError "duplicate variable names" := by
  simp only [gModelAddVars] at h
  by_cases hc : batchNamesOk (allVarNames m) (reqs.map VarData.name) = true
  · rw [if_pos hc] at h; exact absurd h (by simp)
  · rw [if_neg hc] at h
    simp only [Except.error.injEq] at h
    exact h.symm

theorem gModelAddConstrs_error (m : GModel) (reqs : List ConstrData) (e : GPError)
    (h : gModelAddConstrs m reqs = .error e) :
    e = .externalModelError "duplicate constraint names" := by
  simp only [gModelAddConstrs] at h
  by_cases hc : batchNamesOk (allConstrNames m) (reqs.map ConstrData.cname) = true
  · rw [if_pos hc] at h; exact absurd h (by simp)
  · rw [if_neg hc] at h
    simp only [Except.error.injEq] at h
    exact h.symm

theorem build_constr_requests_error (lhs : SeriesOrConst) (sense : SenseArg)
    (rhs : SeriesOrConst) (name : Option String) (e : GPError)
    (h : build_constr_requests lhs sense rhs name = .error e) : e.isValidation = true := by
  simp only [build_constr_requests] at h
  cases ht : constrTargetIndex lhs sense rhs with
  | none =>
    simp only [ht, Except.error.injEq] at h
    rw [← h]; rfl
  | some t =>
    simp only [ht] at h
    by_cases ha : (socIndexOk t lhs && socIndexOk t rhs && senseIndexOk t sense) = true
    · rw [if_pos ha] at h
      cases hcs : checkSenses (senseValues t.length sense) with
      | error e2 =>
        rw [hcs] at h
        simp only [Except.error.injEq] at h
        rw [← h]
        simp only [checkSenses] at hcs
        by_cases hall : (senseValues t.length sense).all (fun s => decide (s ∈ validSenses)) = true
        · rw [if_pos hall] at hcs; exact absurd hcs (by simp)
        · rw [if_neg hall] at hcs
          simp only [Except.error.injEq] at hcs
          rw [← hcs]; rfl
      | ok u => rw [hcs] at h; exact absurd h (by simp)
    · rw [if_neg ha] at h
      simp only [Except.error.injEq] at h
      rw [← h]; rfl

theorem add_vars_error_of_dispatch (m : GModel) (p : PandasObj) (name : Option String)
    (lb ub obj vtype : VSpec) (e : GPError)
    (h : dispatch_requests p name lb ub obj vtype = .error e) :
    add_vars m p name lb ub obj vtype = .error e := by
  cases p with
  | index idx =>
    simp only [dispatch_requests] at h
    simp [add_vars, add_vars_from_index, h]
  | series s =>
    simp only [dispatch_requests] at h
    simp [add_vars, add_vars_from_index, h]
  | frame df =>
    cases name with
    | none =>
      simp only [dispatch_requests, Except.error.injEq] at h
      simp [add_vars, add_vars_from_dataframe, ← h]
    | some n =>
      simp only [dispatch_requests] at h
      by_cases hmem : n ∈ df.cols.map Prod.fst
      · rw [if_pos hmem] at h
        simp only [Except.error.injEq] at h
        simp [add_vars, add_vars_from_dataframe, if_pos hmem, ← h]
      · rw [if_neg hmem] at h
        simp [add_vars, add_vars_from_dataframe, if_neg hmem, h]
  | other s =>
    simp only [dispatch_requests, Except.error.injEq] at h
    simp [add_vars, ← h]

theorem add_vars_error_inv (m : GModel) (p : PandasObj) (name : Option String)
    (lb ub obj vtype : VSpec) (e : GPError)
    (h : add_vars m p name lb ub obj vtype = .error e) :
    dispatch_requests p name lb ub obj vtype = .error e ∨
    ∃ reqs, dispatch_requests p name lb ub obj vtype = .ok reqs ∧
      gModelAddVars m reqs = .error e := by
  cases p with
  | index idx =>
    simp only [add_vars, add_vars_from_index] at h
    cases hb : build_var_requests idx none name lb ub obj vtype with
    | error e2 =>
      simp only [hb, Except.error.injEq] at h
      exact Or.inl (by simp only [dispatch_requests, hb, h])
    | ok reqs =>
      simp only [hb] at h
      cases hg : gModelAddVars m reqs with
      | error e2 =>
        simp only [hg, Except.error.injEq] at h
        exact Or.inr ⟨reqs, by simp only [dispatch_requests, hb], by rw [hg, h]⟩
      | ok p2 => obtain ⟨m2, hs⟩ := p2; simp only [hg] at h; exact absurd h (by simp)
  | series s =>
    simp only [add_vars, add_vars_from_index] at h
    cases hb : build_var_requests (s.map Prod.fst) none name lb ub obj vtype with
    | error e2 =>
      simp only [hb, Except.error.injEq] at h
      exact Or.inl (by simp only [dispatch_requests, hb, h])
    | ok reqs =>
      simp only [hb] at h
      cases hg : gModelAddVars m reqs with
      | error e2 =>
        simp only [hg, Except.error.injEq] at h
        exact Or.inr ⟨reqs, by simp only [dispatch_requests, hb], by rw [hg, h]⟩
      | ok p2 => obtain ⟨m2, hs⟩ := p2; simp only [hg] at h; exact absurd h (by simp)
  | frame df =>
    cases name with
    | none =>
      simp only [add_vars, add_vars_from_dataframe, Except.error.injEq] at h
      exact Or.inl (by simp only [dispatch_requests, h])
    | some n =>
      simp only [add_vars, add_vars_from_dataframe] at h
      by_cases hmem : n ∈ df.cols.map Prod.fst
      · rw [if_pos hmem] at h
        simp only [Except.error.injEq] at h
        refine Or.inl ?_
        simp only [dispatch_requests, if_pos hmem, h]
      · rw [if_neg hmem] at h
        cases hb : build_var_requests df.index (some df) (some n) lb ub obj vtype with
        | error e2 =>
          simp only [hb, Except.error.injEq] at h
          refine Or.inl ?_
          simp only [dispatch_requests, if_neg hmem, hb, h]
        | ok reqs =>
          simp only [hb] at h
          cases hg : gModelAddVars m reqs with
          | error e2 =>
            simp only [hg, Except.error.injEq] at h
            exact Or.inr ⟨reqs, by simp only [dispatch_requests, if_neg hmem, hb],
              by rw [hg, h]⟩
          | ok p2 => obtain ⟨m2, hs⟩ := p2; simp only [hg] at h; exact absurd h (by simp)
  | other s =>
    simp only [add_vars, Except.error.injEq] at h
    exact Or.inl (by simp only [dispatch_requests, h])

theorem add_constrs_error_of_build (m : GModel) (lhs : SeriesOrConst) (sense : SenseArg)
    (rhs : SeriesOrConst) (name : Option String) (e : GPError)
    (h : build_constr_requests lhs sense rhs name = .error e) :
    add_constrs m lhs sense rhs name = .error e := by
  simp [add_constrs, add_constrs_from_series, h]

theorem add_constrs_error_inv (m : GModel) (lhs : SeriesOrConst) (sense : SenseArg)
    (rhs : SeriesOrConst) (name : Option String) (e : GPError)
    (h : add_constrs m lhs sense rhs name = .error e) :
    build_constr_requests lhs sense rhs name = .error e ∨
    ∃ t reqs, build_constr_requests lhs sense rhs name = .ok (t, reqs) ∧
      gModelAddConstrs m reqs = .error e := by
  simp only [add_constrs, add_constrs_from_series] at h
  cases hb : build_constr_requests lhs sense rhs name with
  | error e2 =>
    simp only [hb, Except.error.injEq] at h
    exact Or.inl (congrArg Except.error h)
  | ok p =>
    obtain ⟨t, reqs⟩ := p
    simp only [hb] at h
    cases hg : gModelAddConstrs m reqs with
    | error e2 =>
      simp only [hg, Except.error.injEq] at h
      exact Or.inr ⟨t, reqs, rfl, by rw [hg, h]⟩
    | ok p2 => obtain ⟨m2, hs⟩ := p2; simp only [hg] at h; exact absurd h (by simp)

/-- Claim C7: fail-fast atomicity.  A validation error
(ConfigurationError, AlignmentError, TypeError-class, or the
dispatcher's ValueError) raised by variable or constraint creation is
independent of the model: the same call errs identically on every model
state, because validation completes before the batch call, and the error
result carries no model, so the external model is unchanged.  A
non-validation error can arise only after validation succeeded, and is
exactly the external model's own batch-call error, propagated
unchanged. -/
theorem c7_fail_fast (m mB : GModel) (p : PandasObj) (nm : Option String)
    (lb ub obj vtype : VSpec) (lhs rhs : SeriesOrConst) (sense : SenseArg)
    (cnm : Option String) (e : GPError) :
    (add_vars m p nm lb ub obj vtype = .error e → e.isValidation = true →
      add_vars mB p nm lb ub obj vtype = .error e) ∧
    (add_vars m p nm lb ub obj vtype = .error e → e.isValidation = false →
      ∃ reqs, dispatch_requests p nm lb ub obj vtype = .ok reqs ∧
        gModelAddVars m reqs = .error e) ∧
    (add_constrs m lhs sense rhs cnm = .error e → e.isValidation = true →
      add_constrs mB lhs sense rhs cnm = .error e) ∧
    (add_constrs m lhs sense rhs cnm = .error e → e.isValidation = false →
      ∃ t reqs, build_constr_requests lhs sense rhs cnm = .ok (t, reqs) ∧
        gModelAddConstrs m reqs = .error e) := by
  refine ⟨?_, ?_, ?_, ?_⟩
  · intro h hv
    cases add_vars_error_inv m p nm lb ub obj vtype e h with
    | inl hd => exact add_vars_error_of_dispatch mB p nm lb ub obj vtype e hd
    | inr hx =>
      obtain ⟨reqs, _, hg⟩ := hx
      rw [gModelAddVars_error m reqs e hg] at hv
      exact absurd hv (by simp [GPError.isValidation])
  · intro h hv
    cases add_vars_error_inv m p nm lb ub obj vtype e h with
    | inl hd =>
      rw [dispatch_requests_error p nm lb ub obj vtype e hd] at hv
      exact absurd hv (by simp)
    | inr hx => exact hx
  · intro h hv
    cases add_constrs_error_inv m lhs sense rhs cnm e h with
    | inl hd => exact add_constrs_error_of_build mB lhs sense rhs cnm e hd
    | inr hx =>
      obtain ⟨t, reqs, _, hg⟩ := hx
      rw [gModelAddConstrs_error m reqs e hg] at hv
      exact absurd hv (by simp [GPError.isValidation])
  · intro h hv
    cases add_constrs_error_inv m lhs sense rhs cnm e h with
    | inl hd =>
      rw [build_constr_requests_error lhs sense rhs cnm e hd] at hv
      exact absurd hv (by simp)
    | inr hx => exact hx

theorem c7_witness :
    (add_vars (GModel.mk [] [] [] [])
      (.frame (DataFrame.mk [Key.single (.int 0)] [("a", [CellVal.num 1])])) none
      (.const (.num 0)) (.const (.num 1)) (.const (.num 0)) (.const (.str "C")) =
      .error (.configurationError "a column name is required to attach the result")) ∧
    (∃ reqs, dispatch_requests (.index [Key.single (.int 0), Key.single (.int 0)])
        (some "x") (.const (.num 0)) (.const (.num 1)) (.const (.num 0))
        (.const (.str "C")) = .ok reqs ∧
      gModelAddVars (GModel.mk [] [] [] []) reqs =
        .error (.externalModelError "duplicate variable names")) :=
  ⟨(c7_fail_fast (GModel.mk [VarData.mk 0 1 0 "C" (some "z")] [] [] [])
      (GModel.mk [] [] [] [])
      (.frame (DataFrame.mk [Key.single (.int 0)] [("a", [CellVal.num 1])])) none
      (.const (.num 0)) (.const (.num 1)) (.const (.num 0)) (.const (.str "C"))
      (.const 0) (.const 0) (.one "=") none
      (.configurationError "a column name is required to attach the result")).1 rfl rfl,
   (c7_fail_fast (GModel.mk [] [] [] []) (GModel.mk [] [] [] [])
      (.index [Key.single (.int 0), Key.single (.int 0)]) (some "x")
      (.const (.num 0)) (.const (.num 1)) (.const (.num 0)) (.const (.str "C"))
      (.const 0) (.const 0) (.one "=") none
      (.externalModelError "duplicate variable names")).2.1 rfl rfl⟩

end GurobipyPandas
